import Mathlib

/-
  Verification development for the DTwinBot repository (src/agent.py).

  The file shallowly embeds the in-memory AAS document model of class
  `AASAgent` and its operation set, and proves the specification claims
  about it.  Python dictionaries (`self.submodels`, `self.concept_descriptions`)
  are embedded as insertion-ordered association lists with Python dict
  assignment semantics (`dictInsert`): assigning to an existing key replaces
  the value in place, assigning a fresh key appends.  The BaSyx object store
  used by save/load is embedded as a list of store objects with the
  duplicate-identifier check of `DictObjectStore.add`.  Machine-level details
  owned by the external BaSyx library (id_short well-formedness validation,
  the exact JSON byte format) are outside this repository; where a definition
  depends on them it is marked `Modelled from the spec:`.
-/

set_option maxHeartbeats 1000000

namespace DTwinBot

/-! ## Data model (mirrors the BaSyx model objects the agent constructs) -/

/-- `model.AssetKind` as used by the agent (`create_aas` line 330). -/
inductive AssetKind where
  | INSTANCE
  | TYPE
  deriving DecidableEq, Repr

/-- `model.AssetInformation` (agent.py lines 329-332). -/
structure AssetInformation where
  assetKind : AssetKind
  globalAssetId : String
  deriving DecidableEq, Repr

/-- `model.AssetAdministrationShell` as held in `self.aas` (agent.py lines 334-338).
`submodelRefs` is the shell's set of `ModelReference`s added by `add_submodel`
(line 356); a reference is identified by the referenced submodel id. -/
structure Shell where
  id : String
  idShort : String
  assetInfo : AssetInformation
  submodelRefs : List String
  deriving DecidableEq, Repr

/-- The four value types of the agent's `type_map` (agent.py lines 377-382). -/
inductive VType where
  | string
  | int
  | float
  | boolean
  deriving DecidableEq, Repr

/-- A stored property value.  Python floats are embedded as rationals; no claim
depends on IEEE-754 rounding, only on the float parser accepting/rejecting. -/
inductive Value where
  | str (s : String)
  | int (n : Int)
  | bool (b : Bool)
  | float (q : Rat)
  deriving DecidableEq, Repr

/-- `model.Property` (agent.py lines 400-404, 407-413). -/
structure Property where
  idShort : String
  valueType : VType
  value : Option Value
  semanticId : Option String
  deriving DecidableEq, Repr

/-- `model.Submodel` (agent.py lines 350-353); `elements` is the submodel's
ordered `submodel_element` collection. -/
structure Submodel where
  id : String
  idShort : String
  elements : List Property
  deriving DecidableEq, Repr

/-- `model.ConceptDescription` (agent.py lines 618-633); `displayName` and
`description` are the single-locale "en" texts. -/
structure ConceptDescription where
  id : String
  idShort : String
  displayName : Option String
  description : Option String
  deriving DecidableEq, Repr

/-- The mutable state of `AASAgent` relevant to the document model
(agent.py lines 39-43, without the conversation history). -/
structure AgentState where
  aas : Option Shell
  submodels : List (String × Submodel)
  concept_descriptions : List (String × ConceptDescription)
  deriving DecidableEq, Repr

def emptyState : AgentState := ⟨none, [], []⟩

/-! ## Python dict embedding -/

/-- Python dict assignment `d[k] = v`: replaces in place when the key exists,
appends otherwise (insertion order preserved). -/
def dictInsert {α : Type} (l : List (String × α)) (k : String) (v : α) :
    List (String × α) :=
  match l with
  | [] => [(k, v)]
  | (k', v') :: rest => if k' = k then (k, v) :: rest else (k', v') :: dictInsert rest k v

/-- Python dict lookup `d[k]` / `d.get(k)`. -/
def dictGet {α : Type} (l : List (String × α)) (k : String) : Option α :=
  match l with
  | [] => none
  | (k', v) :: rest => if k' = k then some v else dictGet rest k

/-! ## Value coercion (agent.py lines 388-398 and 447-455) -/

/-- Python `str.lower()`.  (Implemented over the character list so that it
reduces definitionally; ASCII behaviour agrees with Python.) -/
def pyLower (s : String) : String :=
  ⟨s.data.map Char.toLower⟩

/-- The whitespace characters Python `str.strip()` / number parsing remove. -/
def isPySpace (c : Char) : Bool :=
  c = ' ' || c = '\t' || c = '\n' || c = '\r' || c = '\x0b' || c = '\x0c'

/-- Python's stripping of surrounding whitespace before numeric parsing. -/
def pyTrim (s : String) : String :=
  ⟨((s.data.dropWhile isPySpace).reverse.dropWhile isPySpace).reverse⟩

/-- Value of a run of decimal digits. -/
def digitsToNat (l : List Char) : Nat :=
  l.foldl (fun n c => n * 10 + (c.toNat - 48)) 0

/-- Split off one optional leading sign. -/
def splitSign (l : List Char) : Bool × List Char :=
  match l with
  | '-' :: rest => (true, rest)
  | '+' :: rest => (false, rest)
  | _ => (false, l)

/-- Python `int(s)` on a string: optional surrounding whitespace, optional
sign, a nonempty run of decimal digits; anything else raises `ValueError`
(embedded as `none`).  Python additionally accepts digit-group underscores
and non-ASCII digits; no claim exercises those inputs. -/
def parseIntPy (s : String) : Option Int :=
  let (neg, ds) := splitSign (pyTrim s).data
  if !ds.isEmpty && ds.all Char.isDigit then
    some ((if neg then -1 else 1) * (digitsToNat ds : Int))
  else none

/-- Split a character list at the decimal points. -/
def splitDot (l : List Char) : List (List Char) :=
  match l with
  | [] => [[]]
  | '.' :: rest => [] :: splitDot rest
  | c :: rest =>
    match splitDot rest with
    | [] => [[c]]
    | h :: tl => (c :: h) :: tl

/-- Python `float(s)` on a string: optional whitespace and sign, digits with an
optional single decimal point, at least one digit in total.  Exponent forms and
`inf`/`nan` are accepted by Python but exercised by no claim. -/
def parseFloatPy (s : String) : Option Rat :=
  let (neg, body) := splitSign (pyTrim s).data
  let sgn : Rat := if neg then -1 else 1
  match splitDot body with
  | [d] =>
    if !d.isEmpty && d.all Char.isDigit then some (sgn * (digitsToNat d : Rat)) else none
  | [a, b] =>
    if (!a.isEmpty || !b.isEmpty) && a.all Char.isDigit && b.all Char.isDigit then
      some (sgn * ((digitsToNat a : Rat) + (digitsToNat b : Rat) / ((10 : Rat) ^ b.length)))
    else none
  | _ => none

/-- An untyped input value as received from the JSON function-call arguments
(string, number, or boolean; agent.py line 145). -/
inductive PyVal where
  | str (s : String)
  | int (n : Int)
  | bool (b : Bool)
  | float (q : Rat)
  deriving DecidableEq, Repr

/-- Python `str(float)` always yields a token containing a decimal point (or
slash for the rational approximation used here); it is never one of the four
truthy tokens, which is all any claim relies on. -/
def pyFloatRepr (q : Rat) : String :=
  if q.den = 1 then toString q.num ++ ".0"
  else toString q.num ++ "/" ++ toString q.den

/-- Python `str(value)` for the embedded input values. -/
def pyStr : PyVal → String
  | .str s => s
  | .int n => toString n
  | .bool b => if b then "True" else "False"
  | .float q => pyFloatRepr q

/-- Python `str(v)` for a stored property value (used in result messages). -/
def pyStrValue : Value → String
  | .str s => s
  | .int n => toString n
  | .bool b => if b then "True" else "False"
  | .float q => pyFloatRepr q

/-- Python `f"{v}"` where a missing value prints `None`. -/
def pyStrOptValue : Option Value → String
  | none => "None"
  | some v => pyStrValue v

/-- `str(value).lower() in ('true', 't', 'yes', '1')` (agent.py lines 396, 453). -/
def pyTruthy (s : String) : Bool :=
  let t := pyLower s
  t == "true" || t == "t" || t == "yes" || t == "1"

/-- Boolean coercion: `bool(value) if isinstance(value, bool) else
str(value).lower() in ('true', 't', 'yes', '1')` (agent.py lines 396, 453). -/
def coerceBool : PyVal → Bool
  | .bool b => b
  | v => pyTruthy (pyStr v)

/-- Python `int(value)` over the embedded input values (truncation toward zero
for floats, 0/1 for booleans, base-10 parse for strings). -/
def pyInt : PyVal → Option Int
  | .int n => some n
  | .bool b => some (if b then 1 else 0)
  | .float q => some (q.num.tdiv (q.den : Int))
  | .str s => parseIntPy s

/-- Python `float(value)` over the embedded input values. -/
def pyFloat : PyVal → Option Rat
  | .float q => some q
  | .int n => some (n : Rat)
  | .bool b => some (if b then 1 else 0)
  | .str s => parseFloatPy s

/-- The value-conversion ladder shared by `add_property` (lines 391-398) and
`update_property` (lines 448-455): `int(value)` / `float(value)` may raise
(`none`), boolean and string conversion always succeed. -/
def coerceValue : VType → PyVal → Option Value
  | .int, v => (pyInt v).map Value.int
  | .float, v => (pyFloat v).map Value.float
  | .boolean, v => some (Value.bool (coerceBool v))
  | .string, v => some (Value.str (pyStr v))

/-- The `type_map` dict of `add_property` (agent.py lines 377-382); callers
look it up at the lowercased tag. -/
def type_map (t : String) : Option VType :=
  if t = "string" then some VType.string
  else if t = "int" then some VType.int
  else if t = "float" then some VType.float
  else if t = "boolean" then some VType.boolean
  else none

/-- `element.value_type.__name__` for the BaSyx datatype classes. -/
def typeName : VType → String
  | .string => "String"
  | .int => "Int"
  | .float => "Float"
  | .boolean => "Boolean"

/-- `asset_kind.name` (agent.py line 565). -/
def kindName : AssetKind → String
  | .INSTANCE => "INSTANCE"
  | .TYPE => "TYPE"

/-! ## Operation outcomes (one constructor per return site in agent.py) -/

inductive OpOutcome where
  | okCreatedAas (id_short aas_id : String)
  | errNoShell
  | okAddedSubmodel (id_short : String)
  | errSubmodelNotFound (id_short : String)
  | errInvalidType (tag : String)
  | errInvalidValue (ctx : String)
  | okAddedProperty (property_name value_type submodel_id_short : String)
      (value : Option Value) (semantic_id : Option String)
  | errPropertyNotFoundIn (property_name submodel_id_short : String)
  | errPropertyNotFound (property_name : String)
  | okUpdated (property_name : String) (oldValue : Option Value) (newValue : Value)
  | okGot (property_name : String) (value : Option Value) (t : VType)
  | okText (text : String)
  | errNoAasToSave
  | errSaveFailed
  | okSaved (filename : String) (nSub nCd : Nat)
  | okLoaded (id_short filename : String) (nSub nElem nCd : Nat)
  | errNoAasInFile
  | errFileNotFound (filename : String)
  | okAddedConcept (id_short : String) (preferred_name definition : Option String)
  | okUpdatedSemantic (property_name semantic_id : String)
  | errNoAasExport
  | errExportFailed
  | okJson (pretty : String) (id_short : String) (nSub nElem nCd : Nat)
  deriving DecidableEq, Repr

/-! ## Submodel / element resolution helpers -/

/-- The submodel-by-`id_short` loop repeated at agent.py lines 367-371,
427-431, 465-469, 652-656: first match over `self.submodels.values()` in
insertion order. -/
def findSubmodel (l : List (String × Submodel)) (s : String) : Option Submodel :=
  (l.find? (fun p => p.2.idShort == s)).map (fun p => p.2)

/-- `submodel.submodel_element.get_object_by_attribute('id_short', name)`:
first element with the given `id_short`. -/
def findElem (sm : Submodel) (p : String) : Option Property :=
  sm.elements.find? (fun e => e.idShort == p)

/-- Mutating the submodel object found by the first-match loop is embedded as
rewriting the first `id_short` match in the association list. -/
def updateFirstSubmodel (l : List (String × Submodel)) (s : String)
    (f : Submodel → Submodel) : List (String × Submodel) :=
  match l with
  | [] => []
  | (k, sm) :: rest =>
    if sm.idShort == s then (k, f sm) :: rest
    else (k, sm) :: updateFirstSubmodel rest s f

/-- In-place `property_elem.value = v` on the first element named `p`. -/
def setElemValue (l : List Property) (p : String) (v : Value) : List Property :=
  match l with
  | [] => []
  | e :: rest =>
    if e.idShort == p then { e with value := some v } :: rest
    else e :: setElemValue rest p v

/-- In-place `property_elem.semantic_id = ExternalReference(...)` on the first
element named `p` (agent.py lines 671-676). -/
def setElemSemantic (l : List Property) (p : String) (sid : String) : List Property :=
  match l with
  | [] => []
  | e :: rest =>
    if e.idShort == p then { e with semanticId := some sid } :: rest
    else e :: setElemSemantic rest p sid

/-- `self.aas.submodel.add(ModelReference.from_referable(submodel))`: set
insertion, identified by the referenced submodel id. -/
def refInsert (l : List String) (x : String) : List String :=
  if x ∈ l then l else l ++ [x]

/-! ## Structural operations -/

/-- `AASAgent.create_aas` (agent.py lines 326-342): unconditionally replaces
`self.aas` with a fresh shell whose asset kind is hard-coded `INSTANCE`.
BaSyx validation of malformed `id_short` strings is external library
behaviour and is not embedded (the spec restricts the operation to
well-formed strings). -/
def create_aas (aas_id id_short global_asset_id : String) (st : AgentState) :
    AgentState × OpOutcome :=
  ({ st with
      aas := some
        { id := aas_id
          idShort := id_short
          assetInfo := { assetKind := .INSTANCE, globalAssetId := global_asset_id }
          submodelRefs := [] } },
   .okCreatedAas id_short aas_id)

/-- `AASAgent.add_submodel` (agent.py lines 344-360). -/
def add_submodel (submodel_id id_short : String) (st : AgentState) :
    AgentState × OpOutcome :=
  match st.aas with
  | none => (st, .errNoShell)
  | some a =>
    let sm : Submodel := { id := submodel_id, idShort := id_short, elements := [] }
    ({ st with
        submodels := dictInsert st.submodels submodel_id sm
        aas := some { a with submodelRefs := refInsert a.submodelRefs submodel_id } },
     .okAddedSubmodel id_short)

/-- Conversion step of `add_property` (agent.py lines 389-398): `none` means
the conversion raised (caught by the handler's `except`); `some none` means no
value was given. -/
def convertOpt (t : VType) (value : Option PyVal) : Option (Option Value) :=
  match value with
  | none => some none
  | some v => (coerceValue t v).map some

/-- `AASAgent.add_property` (agent.py lines 362-421).  The element is appended
to the resolved submodel's ordered collection. -/
def add_property (submodel_id_short property_name value_type : String)
    (value : Option PyVal) (semantic_id : Option String) (st : AgentState) :
    AgentState × OpOutcome :=
  match findSubmodel st.submodels submodel_id_short with
  | none => (st, .errSubmodelNotFound submodel_id_short)
  | some _ =>
    match type_map (pyLower value_type) with
    | none => (st, .errInvalidType value_type)
    | some t =>
      match convertOpt t value with
      | none => (st, .errInvalidValue "adding property")
      | some cv =>
        let e : Property :=
          { idShort := property_name, valueType := t, value := cv, semanticId := semantic_id }
        ({ st with
            submodels := updateFirstSubmodel st.submodels submodel_id_short
              (fun sm => { sm with elements := sm.elements ++ [e] }) },
         .okAddedProperty property_name value_type submodel_id_short cv semantic_id)

/-- `AASAgent.update_property` (agent.py lines 423-459): the new value is
re-coerced against the element's existing declared `value_type`; a coercion
failure raises and is caught with no mutation performed. -/
def update_property (submodel_id_short property_name : String) (value : PyVal)
    (st : AgentState) : AgentState × OpOutcome :=
  match findSubmodel st.submodels submodel_id_short with
  | none => (st, .errSubmodelNotFound submodel_id_short)
  | some sm =>
    match findElem sm property_name with
    | none => (st, .errPropertyNotFoundIn property_name submodel_id_short)
    | some e =>
      match coerceValue e.valueType value with
      | none => (st, .errInvalidValue "updating property")
      | some nv =>
        ({ st with
            submodels := updateFirstSubmodel st.submodels submodel_id_short
              (fun sm => { sm with elements := setElemValue sm.elements property_name nv }) },
         .okUpdated property_name e.value nv)

/-- `AASAgent.get_property_value` (agent.py lines 461-485): read-only. -/
def get_property_value (submodel_id_short property_name : String) (st : AgentState) :
    AgentState × OpOutcome :=
  match findSubmodel st.submodels submodel_id_short with
  | none => (st, .errSubmodelNotFound submodel_id_short)
  | some sm =>
    match findElem sm property_name with
    | none => (st, .errPropertyNotFound property_name)
    | some e => (st, .okGot property_name e.value e.valueType)

/-- `AASAgent.add_concept_description` (agent.py lines 613-646): no dependency
on the shell; insert/overwrite by id. -/
def add_concept_description (concept_id id_short : String)
    (preferred_name definition : Option String) (st : AgentState) :
    AgentState × OpOutcome :=
  let c : ConceptDescription :=
    { id := concept_id, idShort := id_short
      displayName := preferred_name, description := definition }
  ({ st with concept_descriptions := dictInsert st.concept_descriptions concept_id c },
   .okAddedConcept id_short preferred_name definition)

/-- `AASAgent.update_semantic_id` (agent.py lines 648-680). -/
def update_semantic_id (submodel_id_short property_name semantic_id : String)
    (st : AgentState) : AgentState × OpOutcome :=
  match findSubmodel st.submodels submodel_id_short with
  | none => (st, .errSubmodelNotFound submodel_id_short)
  | some sm =>
    match findElem sm property_name with
    | none => (st, .errPropertyNotFoundIn property_name submodel_id_short)
    | some _ =>
      ({ st with
          submodels := updateFirstSubmodel st.submodels submodel_id_short
            (fun sm => { sm with elements := setElemSemantic sm.elements property_name semantic_id }) },
       .okUpdatedSemantic property_name semantic_id)

/-! ## Serialization boundary (agent.py lines 487-549, 682-722) -/

/-- One object of the BaSyx `DictObjectStore` the agent saves and loads. -/
inductive StoreObj where
  | shellObj (a : Shell)
  | submodelObj (s : Submodel)
  | conceptObj (c : ConceptDescription)
  deriving DecidableEq, Repr

/-- The identifier under which `DictObjectStore` keys an object. -/
def storeId : StoreObj → String
  | .shellObj a => a.id
  | .submodelObj s => s.id
  | .conceptObj c => c.id

/-- The store built by `save_aas` / `get_digital_twin_json`: the shell, then
every submodel, then every concept description, in mapping insertion order
(agent.py lines 496-503). -/
def buildStore (a : Shell) (st : AgentState) : List StoreObj :=
  StoreObj.shellObj a ::
    (st.submodels.map (fun p => StoreObj.submodelObj p.2) ++
     st.concept_descriptions.map (fun p => StoreObj.conceptObj p.2))

inductive SaveErr where
  | noShell
  | duplicateIdInStore
  deriving DecidableEq, Repr

/-- The store-building phase of `save_aas`: fails when no shell exists, or when
`DictObjectStore.add` raises because two objects share an identifier.  The
actual byte serialization of the store is the external BaSyx adapter;
Modelled from the spec: the adapter round-trips the store losslessly, so the
file content is identified with the store itself. -/
def saveStore (st : AgentState) : Except SaveErr (List StoreObj) :=
  match st.aas with
  | none => .error .noShell
  | some a =>
    let objs := buildStore a st
    if ((objs.map storeId).Nodup : Prop) then .ok objs else .error .duplicateIdInStore

/-- Total element count over all submodels (agent.py lines 540, 607, 716). -/
def totalElements (st : AgentState) : Nat :=
  st.submodels.foldl (fun n p => n + p.2.elements.length) 0

/-- `AASAgent.save_aas` (agent.py lines 487-512): appends the `.json`
extension when missing; the write itself is the external adapter. -/
def save_aas (filename : String) (st : AgentState) : AgentState × OpOutcome :=
  let fn := if ".json".data.isSuffixOf filename.data then filename else filename ++ ".json"
  match saveStore st with
  | .error .noShell => (st, .errNoAasToSave)
  | .error .duplicateIdInStore => (st, .errSaveFailed)
  | .ok _ => (st, .okSaved fn st.submodels.length st.concept_descriptions.length)

/-- First `AssetAdministrationShell` in the loaded store (agent.py lines 521-525). -/
def firstShell : List StoreObj → Option Shell
  | [] => none
  | .shellObj a :: _ => some a
  | _ :: rest => firstShell rest

/-- Step of the submodel extraction loop `self.submodels[obj.id] = obj`
(agent.py lines 528-531). -/
def subStep (acc : List (String × Submodel)) (o : StoreObj) : List (String × Submodel) :=
  match o with
  | .submodelObj s => dictInsert acc s.id s
  | _ => acc

def collectSubmodels (store : List StoreObj) : List (String × Submodel) :=
  store.foldl subStep []

/-- Step of the concept-description extraction loop (agent.py lines 534-537). -/
def cdStep (acc : List (String × ConceptDescription)) (o : StoreObj) :
    List (String × ConceptDescription) :=
  match o with
  | .conceptObj c => dictInsert acc c.id c
  | _ => acc

def collectConcepts (store : List StoreObj) : List (String × ConceptDescription) :=
  store.foldl cdStep []

/-- `AASAgent.load_aas` on successfully parsed file content (agent.py lines
514-549): replaces the entire in-memory document; a file without a shell
still replaces the document and reports `No AAS found in file`. -/
def load_aas (filename : String) (store : List StoreObj) (_st : AgentState) :
    AgentState × OpOutcome :=
  let newSt : AgentState :=
    { aas := firstShell store
      submodels := collectSubmodels store
      concept_descriptions := collectConcepts store }
  match firstShell store with
  | some a =>
    (newSt, .okLoaded a.idShort filename newSt.submodels.length (totalElements newSt)
      newSt.concept_descriptions.length)
  | none => (newSt, .errNoAasInFile)

/-! ## Rendering (agent.py lines 55-72, 551-611, 682-722) -/

/-- Per-submodel block of `get_current_state` (agent.py lines 66-70). -/
def stateSubmodelBlock (sm : Submodel) : String :=
  "  - " ++ sm.idShort ++ ": " ++ toString sm.elements.length ++ " elements\n" ++
    String.join (sm.elements.map (fun e =>
      "    • " ++ e.idShort ++ " (" ++ typeName e.valueType ++ "): " ++
        pyStrOptValue e.value ++ "\n"))

/-- `AASAgent.get_current_state` (agent.py lines 55-72): textual summary,
read-only. -/
def get_current_state (st : AgentState) : String :=
  match st.aas with
  | none => "No AAS exists yet."
  | some a =>
    let base :=
      "Current AAS: " ++ a.idShort ++ " (" ++ a.id ++ ")\n" ++
      "Asset ID: " ++ a.assetInfo.globalAssetId ++ "\n" ++
      "Number of Submodels: " ++ toString st.submodels.length ++ "\n"
    if st.submodels.isEmpty then base
    else base ++ "\nSubmodels:\n" ++ String.join (st.submodels.map (fun p => stateSubmodelBlock p.2))

/-- Element branches of the tree view (agent.py lines 583-598); `cont` is the
per-level continuation string. -/
def treeElems (cont : String) : List Property → List String
  | [] => []
  | e :: rest =>
    let isLast := rest.isEmpty
    let conn := if isLast then "└─" else "├─"
    let valDisp := pyStrOptValue e.value
    let tName := typeName e.valueType
    (cont ++ "│  " ++ conn ++ " 📌 " ++ e.idShort) ::
      (if isLast then
        [cont ++ "│     ├─ Type: " ++ tName, cont ++ "│     └─ Value: " ++ valDisp]
      else
        [cont ++ "│  │  ├─ Type: " ++ tName, cont ++ "│  │  └─ Value: " ++ valDisp]) ++
      treeElems cont rest

/-- One submodel branch of the tree view (agent.py lines 570-603). -/
def treeSubmodelBlock (sm : Submodel) (isLast : Bool) : List String :=
  let conn := if isLast then "└─" else "├─"
  let cont := if isLast then "   " else "│  "
  (conn ++ " 📋 Submodel: " ++ sm.idShort) ::
    (cont ++ "├─ ID: " ++ sm.id) ::
    (if sm.elements.isEmpty then [cont ++ "└─ Elements: 0 (empty)"]
     else (cont ++ "├─ Elements: " ++ toString sm.elements.length) ::
       (cont ++ "│") :: treeElems cont sm.elements) ++
    (if isLast then [] else ["│"])

def treeSubmodelBlocks : List Submodel → List String
  | [] => []
  | sm :: rest => treeSubmodelBlock sm rest.isEmpty ++ treeSubmodelBlocks rest

/-- `AASAgent.get_tree_view` (agent.py lines 551-611): box-drawing tree,
read-only.  `asset_information` is always present on a constructed shell, so
the `if self.aas.asset_information` guard is always taken. -/
def get_tree_view (st : AgentState) : String :=
  match st.aas with
  | none => "❌ No AAS available"
  | some a =>
    let lines :=
      ["📦 Asset Administration Shell", "│",
       "├─ ID Short: " ++ a.idShort,
       "├─ ID: " ++ a.id,
       "├─ 🏭 Asset Information",
       "│  ├─ Global Asset ID: " ++ a.assetInfo.globalAssetId,
       "│  └─ Asset Kind: " ++ kindName a.assetInfo.assetKind] ++
      (if st.submodels.isEmpty then ["└─ Submodels: 0 (empty)"]
       else "│" :: treeSubmodelBlocks (st.submodels.map (fun p => p.2))) ++
      ["", "Summary: " ++ toString st.submodels.length ++ " Submodel(s), " ++
        toString (totalElements st) ++ " Element(s)"]
    String.intercalate "\n" lines

def commaJoin (l : List String) : String := String.intercalate ", " l

def jsonStr (s : String) : String := "\"" ++ s ++ "\""

/-- Modelled from the spec: the JSON text of the persisted document is produced
by the external BaSyx adapter (`aas_json.write_aas_json_file`), which is not
part of this repository.  Per spec section 6 the file is one object collection
holding the shell, the submodels and the concept descriptions with attributes
`id`, `idShort`, `assetInformation.globalAssetId`, `assetInformation.assetKind`,
`submodelElements[]` with `valueType`/`value`, and `semanticId` as a single
`GlobalReference`; this renders that shape. -/
def adapterJson (store : List StoreObj) : String :=
  let lb := "\x7b"
  let rb := "\x7d"
  let propJson := fun (e : Property) =>
    lb ++ jsonStr "idShort" ++ ": " ++ jsonStr e.idShort ++ ", " ++
      jsonStr "valueType" ++ ": " ++ jsonStr (typeName e.valueType) ++ ", " ++
      jsonStr "value" ++ ": " ++ jsonStr (pyStrOptValue e.value) ++
      (match e.semanticId with
       | none => ""
       | some sid => ", " ++ jsonStr "semanticId" ++ ": " ++
           lb ++ jsonStr "type" ++ ": " ++ jsonStr "GlobalReference" ++ ", " ++
             jsonStr "value" ++ ": " ++ jsonStr sid ++ rb) ++ rb
  let objJson := fun (o : StoreObj) =>
    match o with
    | .shellObj a =>
      lb ++ jsonStr "id" ++ ": " ++ jsonStr a.id ++ ", " ++
        jsonStr "idShort" ++ ": " ++ jsonStr a.idShort ++ ", " ++
        jsonStr "assetInformation" ++ ": " ++
          lb ++ jsonStr "assetKind" ++ ": " ++ jsonStr (kindName a.assetInfo.assetKind) ++ ", " ++
            jsonStr "globalAssetId" ++ ": " ++ jsonStr a.assetInfo.globalAssetId ++ rb ++ rb
    | .submodelObj s =>
      lb ++ jsonStr "id" ++ ": " ++ jsonStr s.id ++ ", " ++
        jsonStr "idShort" ++ ": " ++ jsonStr s.idShort ++ ", " ++
        jsonStr "submodelElements" ++ ": [" ++ commaJoin (s.elements.map propJson) ++ "]" ++ rb
    | .conceptObj c =>
      lb ++ jsonStr "id" ++ ": " ++ jsonStr c.id ++ ", " ++
        jsonStr "idShort" ++ ": " ++ jsonStr c.idShort ++ rb
  let pick := fun (f : StoreObj → Bool) =>
    commaJoin ((store.filter f).map objJson)
  lb ++ jsonStr "assetAdministrationShells" ++ ": [" ++
      pick (fun o => match o with | .shellObj _ => true | _ => false) ++ "], " ++
    jsonStr "submodels" ++ ": [" ++
      pick (fun o => match o with | .submodelObj _ => true | _ => false) ++ "], " ++
    jsonStr "conceptDescriptions" ++ ": [" ++
      pick (fun o => match o with | .conceptObj _ => true | _ => false) ++ "]" ++ rb

/-- `AASAgent.get_digital_twin_json` (agent.py lines 682-722): builds the same
object store as `save_aas` and renders it with a manifest; read-only. -/
def get_digital_twin_json (st : AgentState) : AgentState × OpOutcome :=
  match st.aas with
  | none => (st, .errNoAasExport)
  | some a =>
    let objs := buildStore a st
    if ((objs.map storeId).Nodup : Prop) then
      (st, .okJson (adapterJson objs) a.idShort st.submodels.length (totalElements st)
        st.concept_descriptions.length)
    else (st, .errExportFailed)

/-- Rendering of each outcome to the result string returned to the caller.
Texts follow the return statements of agent.py; texts of caught Python
exceptions (whose wording is produced by the interpreter) are abbreviated. -/
def renderOutcome : OpOutcome → String
  | .okCreatedAas s i => "✅ Created AAS '" ++ s ++ "' with ID: " ++ i
  | .errNoShell => "❌ No AAS exists. Please create an AAS first."
  | .okAddedSubmodel s => "✅ Added submodel '" ++ s ++ "' to AAS"
  | .errSubmodelNotFound s => "❌ Submodel '" ++ s ++ "' not found"
  | .errInvalidType t => "❌ Invalid value type: " ++ t
  | .errInvalidValue ctx => "❌ Error " ++ ctx ++ ": invalid literal"
  | .okAddedProperty p vt sm v sid =>
    "✅ Added property '" ++ p ++ "' (" ++ vt ++ ") to submodel '" ++ sm ++ "'" ++
      (match v with | none => "" | some cv => " with value " ++ pyStrValue cv) ++
      (match sid with | none => "" | some s => "\n   Semantic ID: " ++ s)
  | .errPropertyNotFoundIn p sm =>
    "❌ Property '" ++ p ++ "' not found in submodel '" ++ sm ++ "'"
  | .errPropertyNotFound p => "❌ Property '" ++ p ++ "' not found"
  | .okUpdated p old nv =>
    "✅ Updated '" ++ p ++ "': " ++ pyStrOptValue old ++ " → " ++ pyStrValue nv
  | .okGot p v t => "📌 " ++ p ++ " = " ++ pyStrOptValue v ++ " (" ++ typeName t ++ ")"
  | .okText s => s
  | .errNoAasToSave => "❌ No AAS to save"
  | .errSaveFailed => "❌ Error saving: duplicate identifier in object store"
  | .okSaved fn n c =>
    "✅ Saved AAS to '" ++ fn ++ "' (" ++ toString n ++ " submodels" ++
      (if 0 < c then ", " ++ toString c ++ " concept(s)" else "") ++ ")"
  | .okLoaded s fn n e c =>
    "✅ Loaded '" ++ s ++ "' from '" ++ fn ++ "' (" ++ toString n ++ " submodels, " ++
      toString e ++ " elements" ++ (if 0 < c then ", " ++ toString c ++ " concept(s)" else "") ++ ")"
  | .errNoAasInFile => "❌ No AAS found in file"
  | .errFileNotFound fn => "❌ File '" ++ fn ++ "' not found"
  | .okAddedConcept s pn df =>
    "✅ Added concept description '" ++ s ++ "'" ++
      (match pn with | none => "" | some n => "\n   Name: " ++ n) ++
      (match df with | none => "" | some d => "\n   Definition: " ++ d)
  | .okUpdatedSemantic p sid =>
    "✅ Updated semantic ID for '" ++ p ++ "'\n   Semantic ID: " ++ sid
  | .errNoAasExport => "❌ No AAS available to export"
  | .errExportFailed => "❌ Error generating JSON: duplicate identifier in object store"
  | .okJson pretty s n e c =>
    "📄 **Digital Twin JSON:**\n\n```json\n" ++ pretty ++ "\n```\n\n" ++
      "✅ Complete Digital Twin with:\n   • 1 AAS: " ++ s ++ "\n   • " ++
      toString n ++ " Submodel(s)\n   • " ++ toString e ++ " Element(s)\n   • " ++
      toString c ++ " Concept Description(s)\n"

/-! ## Dispatcher (agent.py lines 724-748) -/

/-- The argument mapping passed to `execute_function`; each field is one of
the named parameters appearing in the function catalog
(`get_available_functions`, agent.py lines 74-322).  `none` means the key is
absent from the mapping. -/
structure FnArgs where
  aas_id : Option String := none
  id_short : Option String := none
  global_asset_id : Option String := none
  submodel_id : Option String := none
  submodel_id_short : Option String := none
  property_name : Option String := none
  value_type : Option String := none
  value : Option PyVal := none
  semantic_id : Option String := none
  concept_id : Option String := none
  preferred_name : Option String := none
  definition : Option String := none
  filename : Option String := none
  deriving DecidableEq, Repr

def noArgs : FnArgs := {}

/-- The keys of the dispatcher's `function_map` (agent.py lines 726-739). -/
def catalogNames : List String :=
  ["create_aas", "add_submodel", "add_property", "update_property",
   "get_property_value", "save_aas", "load_aas", "get_tree_view",
   "get_current_state", "add_concept_description", "update_semantic_id",
   "get_digital_twin_json"]

inductive OpName where
  | createAas | addSubmodel | addProperty | updateProperty | getPropertyValue
  | saveAas | loadAas | getTreeView | getCurrentState | addConceptDescription
  | updateSemanticId | getDigitalTwinJson
  deriving DecidableEq, Repr

/-- `function_map.get(function_name)` (agent.py lines 726-741). -/
def opOfName (n : String) : Option OpName :=
  if n = "create_aas" then some .createAas
  else if n = "add_submodel" then some .addSubmodel
  else if n = "add_property" then some .addProperty
  else if n = "update_property" then some .updateProperty
  else if n = "get_property_value" then some .getPropertyValue
  else if n = "save_aas" then some .saveAas
  else if n = "load_aas" then some .loadAas
  else if n = "get_tree_view" then some .getTreeView
  else if n = "get_current_state" then some .getCurrentState
  else if n = "add_concept_description" then some .addConceptDescription
  else if n = "update_semantic_id" then some .updateSemanticId
  else if n = "get_digital_twin_json" then some .getDigitalTwinJson
  else none

/-- Text of the `TypeError` Python raises when `func(**arguments)` misses a
required parameter (wording abbreviated from the interpreter's message). -/
def missingArg (p : String) : String :=
  "missing 1 required positional argument: '" ++ p ++ "'"

/-- `func(**arguments)` for one catalog entry: the error channel is the
`TypeError` raised by the call itself when a required argument is absent,
caught by the dispatcher's `except` (agent.py lines 745-748).  `fs` maps a
filename to the parsed content of an existing well-formed file, standing for
the file system read in `load_aas`. -/
def runHandler (fs : String → Option (List StoreObj)) (op : OpName) (a : FnArgs)
    (st : AgentState) : Except String (AgentState × OpOutcome) :=
  match op with
  | .createAas =>
    match a.aas_id, a.id_short, a.global_asset_id with
    | none, _, _ => .error (missingArg "aas_id")
    | some _, none, _ => .error (missingArg "id_short")
    | some _, some _, none => .error (missingArg "global_asset_id")
    | some i, some s, some g => .ok (create_aas i s g st)
  | .addSubmodel =>
    match a.submodel_id, a.id_short with
    | none, _ => .error (missingArg "submodel_id")
    | some _, none => .error (missingArg "id_short")
    | some i, some s => .ok (add_submodel i s st)
  | .addProperty =>
    match a.submodel_id_short, a.property_name, a.value_type with
    | none, _, _ => .error (missingArg "submodel_id_short")
    | some _, none, _ => .error (missingArg "property_name")
    | some _, some _, none => .error (missingArg "value_type")
    | some s, some p, some t => .ok (add_property s p t a.value a.semantic_id st)
  | .updateProperty =>
    match a.submodel_id_short, a.property_name, a.value with
    | none, _, _ => .error (missingArg "submodel_id_short")
    | some _, none, _ => .error (missingArg "property_name")
    | some _, some _, none => .error (missingArg "value")
    | some s, some p, some v => .ok (update_property s p v st)
  | .getPropertyValue =>
    match a.submodel_id_short, a.property_name with
    | none, _ => .error (missingArg "submodel_id_short")
    | some _, none => .error (missingArg "property_name")
    | some s, some p => .ok (get_property_value s p st)
  | .saveAas =>
    match a.filename with
    | none => .error (missingArg "filename")
    | some fn => .ok (save_aas fn st)
  | .loadAas =>
    match a.filename with
    | none => .error (missingArg "filename")
    | some fn =>
      match fs fn with
      | none => .ok (st, .errFileNotFound fn)
      | some store => .ok (load_aas fn store st)
  | .getTreeView => .ok (st, .okText (get_tree_view st))
  | .getCurrentState => .ok (st, .okText (get_current_state st))
  | .addConceptDescription =>
    match a.concept_id, a.id_short with
    | none, _ => .error (missingArg "concept_id")
    | some _, none => .error (missingArg "id_short")
    | some i, some s => .ok (add_concept_description i s a.preferred_name a.definition st)
  | .updateSemanticId =>
    match a.submodel_id_short, a.property_name, a.semantic_id with
    | none, _, _ => .error (missingArg "submodel_id_short")
    | some _, none, _ => .error (missingArg "property_name")
    | some _, some _, none => .error (missingArg "semantic_id")
    | some s, some p, some sid => .ok (update_semantic_id s p sid st)
  | .getDigitalTwinJson => .ok (get_digital_twin_json st)

/-- `AASAgent.execute_function` (agent.py lines 724-748): total dispatch entry
point — an unknown name yields the `Unknown function` text, a failure raised
by the call is caught and rendered; the result is always a plain string. -/
def execute_function (fs : String → Option (List StoreObj)) (function_name : String)
    (arguments : FnArgs) (st : AgentState) : AgentState × String :=
  match opOfName function_name with
  | none => (st, "❌ Unknown function: " ++ function_name)
  | some op =>
    match runHandler fs op arguments st with
    | .ok (st', out) => (st', renderOutcome out)
    | .error e => (st, "❌ Error executing " ++ function_name ++ ": " ++ e)

/-- The shell's asset kind, when a shell exists. -/
def shellKind (st : AgentState) : Option AssetKind :=
  st.aas.map (fun a => a.assetInfo.assetKind)

/-- A sequence of dispatched catalog calls. -/
def runOps (fs : String → Option (List StoreObj)) (ops : List (String × FnArgs))
    (st : AgentState) : AgentState :=
  ops.foldl (fun s op => (execute_function fs op.1 op.2 s).1) st

/-! ## Association-list lemmas -/

theorem dictGet_mem_keys {α : Type} {l : List (String × α)} {k : String} {v : α}
    (h : dictGet l k = some v) : k ∈ l.map Prod.fst := by
  induction l with
  | nil => simp [dictGet] at h
  | cons p rest ih =>
    by_cases hk : p.1 = k
    · simp [hk]
    · simp only [dictGet] at h
      rw [if_neg hk] at h
      simp [ih h]

theorem dictGet_dictInsert_self {α : Type} (l : List (String × α)) (k : String) (v : α) :
    dictGet (dictInsert l k v) k = some v := by
  induction l with
  | nil => simp [dictInsert, dictGet]
  | cons p rest ih =>
    by_cases hk : p.1 = k
    · simp [dictInsert, dictGet, hk]
    · simp [dictInsert, dictGet, hk, ih]

theorem map_fst_dictInsert_of_mem {α : Type} {l : List (String × α)} {k : String} (v : α)
    (h : k ∈ l.map Prod.fst) : (dictInsert l k v).map Prod.fst = l.map Prod.fst := by
  induction l with
  | nil => simp at h
  | cons p rest ih =>
    by_cases hk : p.1 = k
    · simp [dictInsert, hk]
    · simp only [List.map_cons, List.mem_cons] at h
      rcases h with h | h
      · exact absurd h.symm hk
      · simp [dictInsert, hk, ih h]

theorem dictInsert_append_of_not_mem {α : Type} {l : List (String × α)} {k : String} (v : α)
    (h : k ∉ l.map Prod.fst) : dictInsert l k v = l ++ [(k, v)] := by
  induction l with
  | nil => rfl
  | cons p rest ih =>
    simp only [List.map_cons, List.mem_cons, not_or] at h
    simp only [dictInsert]
    rw [if_neg (fun he => h.1 he.symm), ih h.2]
    rfl

/-! ## Claim theorems: structural operations -/

/-- Claim C3: `create_aas` always succeeds on well-formed strings, replaces the
current shell wholesale (with asset kind `INSTANCE` and an empty reference
list), and leaves both the submodel mapping and the concept-description mapping
exactly as they were. -/
theorem create_aas_replaces_shell_only (aas_id id_short global_asset_id : String)
    (st : AgentState) :
    (create_aas aas_id id_short global_asset_id st).1.aas
        = some ⟨aas_id, id_short, ⟨AssetKind.INSTANCE, global_asset_id⟩, []⟩
      ∧ (create_aas aas_id id_short global_asset_id st).1.submodels = st.submodels
      ∧ (create_aas aas_id id_short global_asset_id st).1.concept_descriptions
          = st.concept_descriptions
      ∧ (create_aas aas_id id_short global_asset_id st).2
          = OpOutcome.okCreatedAas id_short aas_id :=
  ⟨rfl, rfl, rfl, rfl⟩

/-- Claim C4: with no shell in the document, `add_submodel` fails with the
`NoShell` outcome and mutates nothing (the whole state, in particular the
submodel mapping, is returned unchanged). -/
theorem add_submodel_no_shell (submodel_id id_short : String) (st : AgentState)
    (h : st.aas = none) :
    add_submodel submodel_id id_short st = (st, OpOutcome.errNoShell) := by
  simp [add_submodel, h]

theorem add_submodel_no_shell_witness :
    add_submodel "https://ex/sm/tech" "TechData" emptyState
      = (emptyState, OpOutcome.errNoShell) :=
  add_submodel_no_shell "https://ex/sm/tech" "TechData" emptyState rfl

/-- Claim C5: re-adding a submodel under an id already present succeeds and
overwrites the mapping entry in place: the key sequence of the mapping is
unchanged, the entry under the id is the new (fresh, renamed) submodel, and
exactly one entry with that id remains. -/
theorem add_submodel_overwrites_duplicate_id (submodel_id new_short : String)
    (st : AgentState) (a : Shell) (smOld : Submodel)
    (ha : st.aas = some a)
    (hmem : dictGet st.submodels submodel_id = some smOld)
    (hnd : (st.submodels.map Prod.fst).Nodup) :
    (add_submodel submodel_id new_short st).2 = OpOutcome.okAddedSubmodel new_short
      ∧ dictGet (add_submodel submodel_id new_short st).1.submodels submodel_id
          = some ⟨submodel_id, new_short, []⟩
      ∧ (add_submodel submodel_id new_short st).1.submodels.map Prod.fst
          = st.submodels.map Prod.fst
      ∧ ((add_submodel submodel_id new_short st).1.submodels.map Prod.fst).count submodel_id
          = 1 := by
  refine ⟨?_, ?_, ?_, ?_⟩
  · simp [add_submodel, ha]
  · simp [add_submodel, ha, dictGet_dictInsert_self]
  · simp [add_submodel, ha, map_fst_dictInsert_of_mem _ (dictGet_mem_keys hmem)]
  · simp only [add_submodel, ha]
    rw [map_fst_dictInsert_of_mem _ (dictGet_mem_keys hmem)]
    exact List.count_eq_one_of_mem hnd (dictGet_mem_keys hmem)

/-! ### Concrete fixtures used by witness theorems -/

def shellEx : Shell :=
  ⟨"https://ex/aas/motor", "motor", ⟨AssetKind.INSTANCE, "https://ex/assets/m1"⟩, []⟩

def smTech : Submodel :=
  ⟨"https://ex/sm/tech", "TechData",
    [⟨"Count", VType.int, some (Value.int 5), none⟩,
     ⟨"Active", VType.boolean, some (Value.bool true), none⟩]⟩

def stTech : AgentState :=
  ⟨some shellEx, [("https://ex/sm/tech", smTech)], []⟩

theorem add_submodel_overwrites_duplicate_id_witness :
    (add_submodel "https://ex/sm/tech" "NewName" stTech).2
        = OpOutcome.okAddedSubmodel "NewName"
      ∧ dictGet (add_submodel "https://ex/sm/tech" "NewName" stTech).1.submodels
          "https://ex/sm/tech" = some ⟨"https://ex/sm/tech", "NewName", []⟩
      ∧ (add_submodel "https://ex/sm/tech" "NewName" stTech).1.submodels.map Prod.fst
          = stTech.submodels.map Prod.fst
      ∧ ((add_submodel "https://ex/sm/tech" "NewName" stTech).1.submodels.map
          Prod.fst).count "https://ex/sm/tech" = 1 :=
  add_submodel_overwrites_duplicate_id "https://ex/sm/tech" "NewName" stTech shellEx smTech
    rfl (by decide) (by decide)

/-! ## Claim theorems: element operations -/

/-- Claim C2: `update_property` with a value that the element's existing
declared value type cannot coerce fails with the `InvalidValue` outcome and
leaves the whole document — in particular the element's stored value, as
observed by a follow-up `get_property_value` — unchanged.  The coercion is
`coerceValue e.valueType`, i.e. always against the element's declared type. -/
theorem update_property_invalid_value (submodel_id_short property_name : String)
    (v : PyVal) (st : AgentState) (sm : Submodel) (e : Property)
    (hsm : findSubmodel st.submodels submodel_id_short = some sm)
    (he : findElem sm property_name = some e)
    (hco : coerceValue e.valueType v = none) :
    update_property submodel_id_short property_name v st
        = (st, OpOutcome.errInvalidValue "updating property")
      ∧ get_property_value submodel_id_short property_name
            (update_property submodel_id_short property_name v st).1
          = get_property_value submodel_id_short property_name st := by
  have h1 : update_property submodel_id_short property_name v st
      = (st, OpOutcome.errInvalidValue "updating property") := by
    simp [update_property, hsm, he, hco]
  exact ⟨h1, by rw [h1]⟩

theorem update_property_invalid_value_witness :
    update_property "TechData" "Count" (PyVal.str "abc") stTech
        = (stTech, OpOutcome.errInvalidValue "updating property")
      ∧ get_property_value "TechData" "Count"
            (update_property "TechData" "Count" (PyVal.str "abc") stTech).1
          = get_property_value "TechData" "Count" stTech :=
  update_property_invalid_value "TechData" "Count" (PyVal.str "abc") stTech smTech
    ⟨"Count", VType.int, some (Value.int 5), none⟩ (by decide) (by decide) (by decide)

/-- Claim C7: with the submodel resolvable, `add_property` with a value-type
tag outside the type table (`string`, `int`, `float`, `boolean`, matched on
the lowercased tag) fails with the `InvalidType` outcome and leaves the whole
state — in particular the submodel's ordered element collection — unchanged:
no element is appended. -/
theorem add_property_invalid_type (submodel_id_short property_name value_type : String)
    (value : Option PyVal) (semantic_id : Option String) (st : AgentState) (sm : Submodel)
    (hsm : findSubmodel st.submodels submodel_id_short = some sm)
    (ht : type_map (pyLower value_type) = none) :
    add_property submodel_id_short property_name value_type value semantic_id st
        = (st, OpOutcome.errInvalidType value_type)
      ∧ findSubmodel (add_property submodel_id_short property_name value_type value
            semantic_id st).1.submodels submodel_id_short = some sm := by
  have h1 : add_property submodel_id_short property_name value_type value semantic_id st
      = (st, OpOutcome.errInvalidType value_type) := by
    simp [add_property, hsm, ht]
  exact ⟨h1, by rw [h1]; exact hsm⟩

theorem add_property_invalid_type_witness :
    add_property "TechData" "Speed" "double" (some (PyVal.int 3)) none stTech
        = (stTech, OpOutcome.errInvalidType "double")
      ∧ findSubmodel (add_property "TechData" "Speed" "double" (some (PyVal.int 3)) none
            stTech).1.submodels "TechData" = some smTech :=
  add_property_invalid_type "TechData" "Speed" "double" (some (PyVal.int 3)) none stTech
    smTech (by decide) (by decide)

/-- Claim C6: boolean coercion as used by `add_property` and `update_property`
is total and permissive — a boolean input passes through unchanged, any other
input yields `true` exactly when its lowercase Python string form is in the
truthy set `{"true", "t", "yes", "1"}` and `false` otherwise; consequently
`update_property` on a boolean-typed element never fails, whatever the input. -/
theorem boolean_coercion_permissive :
    (∀ b : Bool, coerceBool (PyVal.bool b) = b)
      ∧ (∀ v : PyVal, (∀ b : Bool, v ≠ PyVal.bool b) →
          (coerceBool v = true ↔ pyLower (pyStr v) ∈ ["true", "t", "yes", "1"]))
      ∧ (∀ (st : AgentState) (s p : String) (sm : Submodel) (e : Property) (v : PyVal),
          findSubmodel st.submodels s = some sm → findElem sm p = some e →
          e.valueType = VType.boolean →
          (update_property s p v st).2
            = OpOutcome.okUpdated p e.value (Value.bool (coerceBool v))) := by
  refine ⟨fun b => rfl, ?_, ?_⟩
  · intro v hv
    match v with
    | .bool b => exact absurd rfl (hv b)
    | .str s => simp [coerceBool, pyTruthy, or_assoc]
    | .int n => simp [coerceBool, pyTruthy, or_assoc]
    | .float q => simp [coerceBool, pyTruthy, or_assoc]
  · intro st s p sm e v hsm he hb
    have hco : coerceValue e.valueType v = some (Value.bool (coerceBool v)) := by
      rw [hb]; rfl
    simp [update_property, hsm, he, hco]

theorem boolean_coercion_permissive_witness :
    coerceBool (PyVal.bool false) = false
      ∧ (coerceBool (PyVal.str "YES") = true ↔
          pyLower (pyStr (PyVal.str "YES")) ∈ ["true", "t", "yes", "1"])
      ∧ (coerceBool (PyVal.str "garbage!!") = true ↔
          pyLower (pyStr (PyVal.str "garbage!!")) ∈ ["true", "t", "yes", "1"])
      ∧ (update_property "TechData" "Active" (PyVal.str "garbage!!") stTech).2
          = OpOutcome.okUpdated "Active" (some (Value.bool true))
              (Value.bool (coerceBool (PyVal.str "garbage!!"))) :=
  ⟨boolean_coercion_permissive.1 false,
   boolean_coercion_permissive.2.1 (PyVal.str "YES") (by intro b h; cases h),
   boolean_coercion_permissive.2.1 (PyVal.str "garbage!!") (by intro b h; cases h),
   boolean_coercion_permissive.2.2 stTech "TechData" "Active" smTech
     ⟨"Active", VType.boolean, some (Value.bool true), none⟩ (PyVal.str "garbage!!")
     (by decide) (by decide) rfl⟩

/-! ## Claim C9: lookup by short name takes the first match in insertion order -/

theorem findSubmodel_decomp (l₁ l₂ : List (String × Submodel)) (k s : String)
    (sm : Submodel) (hsm : sm.idShort = s) (hb : ∀ p ∈ l₁, p.2.idShort ≠ s) :
    findSubmodel (l₁ ++ (k, sm) :: l₂) s = some sm := by
  induction l₁ with
  | nil =>
    simp only [List.nil_append, findSubmodel]
    rw [List.find?_cons_of_pos _ (by simp [hsm])]
    rfl
  | cons p rest ih =>
    simp only [List.cons_append, findSubmodel]
    rw [List.find?_cons_of_neg _ (by simp [hb p (List.mem_cons_self p rest)])]
    exact ih (fun q hq => hb q (List.mem_cons_of_mem p hq))

theorem updateFirstSubmodel_decomp (l₁ l₂ : List (String × Submodel)) (k s : String)
    (sm : Submodel) (f : Submodel → Submodel) (hsm : sm.idShort = s)
    (hb : ∀ p ∈ l₁, p.2.idShort ≠ s) :
    updateFirstSubmodel (l₁ ++ (k, sm) :: l₂) s f = l₁ ++ (k, f sm) :: l₂ := by
  induction l₁ with
  | nil => simp [updateFirstSubmodel, hsm]
  | cons p rest ih =>
    obtain ⟨k1, sm1⟩ := p
    simp only [List.cons_append, updateFirstSubmodel, List.append_eq]
    rw [if_neg (by simp [hb (k1, sm1) (List.mem_cons_self _ rest)])]
    rw [ih (fun q hq => hb q (List.mem_cons_of_mem _ hq))]

/-- Claim C9: when several submodels share a short name, every operation that
resolves a submodel by short name (`add_property`, `update_property`,
`get_property_value`, `update_semantic_id`) operates on the first match in
insertion order of the submodel mapping, and duplicate short names are not
rejected: reads report the first matching submodel's element, and writes
rewrite exactly the first matching entry, leaving every later entry (with the
same short name) untouched. -/
theorem short_name_lookup_first_match (st : AgentState)
    (l₁ l₂ : List (String × Submodel)) (k s : String) (sm : Submodel)
    (hdec : st.submodels = l₁ ++ (k, sm) :: l₂)
    (hsm : sm.idShort = s)
    (hb : ∀ p ∈ l₁, p.2.idShort ≠ s) :
    findSubmodel st.submodels s = some sm
      ∧ (∀ p e, findElem sm p = some e →
          get_property_value s p st = (st, OpOutcome.okGot p e.value e.valueType))
      ∧ (∀ p sid e, findElem sm p = some e →
          (update_semantic_id s p sid st).1.submodels
            = l₁ ++ (k, { sm with elements := setElemSemantic sm.elements p sid }) :: l₂)
      ∧ (∀ p v e nv, findElem sm p = some e → coerceValue e.valueType v = some nv →
          (update_property s p v st).1.submodels
            = l₁ ++ (k, { sm with elements := setElemValue sm.elements p nv }) :: l₂)
      ∧ (∀ name tag t sem, type_map (pyLower tag) = some t →
          (add_property s name tag none sem st).1.submodels
            = l₁ ++ (k, { sm with elements := sm.elements ++ [⟨name, t, none, sem⟩] }) :: l₂) := by
  have hfind : findSubmodel st.submodels s = some sm := by
    rw [hdec]; exact findSubmodel_decomp l₁ l₂ k s sm hsm hb
  have hupd : ∀ f, updateFirstSubmodel st.submodels s f = l₁ ++ (k, f sm) :: l₂ := by
    intro f; rw [hdec]; exact updateFirstSubmodel_decomp l₁ l₂ k s sm f hsm hb
  refine ⟨hfind, ?_, ?_, ?_, ?_⟩
  · intro p e he
    simp [get_property_value, hfind, he]
  · intro p sid e he
    simp [update_semantic_id, hfind, he, hupd]
  · intro p v e nv he hco
    simp [update_property, hfind, he, hco, hupd]
  · intro name tag t sem ht
    simp [add_property, hfind, ht, convertOpt, hupd]

def smDupA : Submodel :=
  ⟨"https://ex/sm/a", "Sensor", [⟨"Temp", VType.float, some (Value.float 25), none⟩]⟩

def smDupB : Submodel :=
  ⟨"https://ex/sm/b", "Sensor", [⟨"Temp", VType.float, some (Value.float 99), none⟩]⟩

def stDup : AgentState :=
  ⟨some shellEx, [("https://ex/sm/a", smDupA), ("https://ex/sm/b", smDupB)], []⟩

theorem short_name_lookup_first_match_witness :
    findSubmodel stDup.submodels "Sensor" = some smDupA
      ∧ get_property_value "Sensor" "Temp" stDup
          = (stDup, OpOutcome.okGot "Temp" (some (Value.float 25)) VType.float)
      ∧ (update_semantic_id "Sensor" "Temp" "https://ex/cd/temp" stDup).1.submodels
          = [] ++ ("https://ex/sm/a",
              { smDupA with
                  elements := setElemSemantic smDupA.elements "Temp" "https://ex/cd/temp" }) ::
              [("https://ex/sm/b", smDupB)] := by
  have h := short_name_lookup_first_match stDup []
    [("https://ex/sm/b", smDupB)] "https://ex/sm/a" "Sensor" smDupA rfl rfl
    (by intro p hp; cases hp)
  exact ⟨h.1,
    h.2.1 "Temp" ⟨"Temp", VType.float, some (Value.float 25), none⟩ (by decide),
    h.2.2.1 "Temp" "https://ex/cd/temp" ⟨"Temp", VType.float, some (Value.float 25), none⟩
      (by decide)⟩

/-! ## Claim C8: the dispatcher is total -/

theorem opOfName_eq_none_iff (n : String) : opOfName n = none ↔ n ∉ catalogNames := by
  unfold opOfName
  split_ifs with h1 h2 h3 h4 h5 h6 h7 h8 h9 h10 h11 h12 <;>
    simp_all [catalogNames]

/-- Claim C8: `execute_function` is a total function into result strings — an
operation name outside the fixed catalog yields the `Unknown function` text
with the state untouched (a returned value, not a raised failure), and any
failure raised by the invoked handler call (`func(**arguments)`, here the
missing-required-argument `TypeError` channel) is caught and rendered as the
`Error executing` text with the state untouched; in every case a state/string
pair is returned. -/
theorem dispatcher_total (fs : String → Option (List StoreObj)) (name : String)
    (a : FnArgs) (st : AgentState) :
    (name ∉ catalogNames →
        execute_function fs name a st = (st, "❌ Unknown function: " ++ name))
      ∧ (∀ op e, opOfName name = some op → runHandler fs op a st = .error e →
          execute_function fs name a st
            = (st, "❌ Error executing " ++ name ++ ": " ++ e))
      ∧ ∃ st2 msg, execute_function fs name a st = (st2, msg) := by
  refine ⟨?_, ?_, ?_⟩
  · intro h
    have hn : opOfName name = none := (opOfName_eq_none_iff name).mpr h
    simp [execute_function, hn]
  · intro op e hop herr
    simp [execute_function, hop, herr]
  · exact ⟨_, _, rfl⟩

theorem dispatcher_total_witness :
    ("delete_everything" ∉ catalogNames
        ∧ execute_function (fun _ => none) "delete_everything" noArgs stTech
            = (stTech, "❌ Unknown function: " ++ "delete_everything"))
      ∧ execute_function (fun _ => none) "create_aas" noArgs stTech
          = (stTech, "❌ Error executing " ++ "create_aas" ++ ": " ++
              missingArg "aas_id") :=
  ⟨⟨by decide,
    (dispatcher_total (fun _ => none) "delete_everything" noArgs stTech).1 (by decide)⟩,
   (dispatcher_total (fun _ => none) "create_aas" noArgs stTech).2.1 OpName.createAas
     (missingArg "aas_id") (by decide) rfl⟩

/-! ## Claim C10: only `load_aas` can introduce a TYPE shell -/

theorem shellKind_congr {st1 st2 : AgentState} (h : st1.aas = st2.aas) :
    shellKind st1 = shellKind st2 := by simp [shellKind, h]

theorem shellKind_create_aas (i s g : String) (st : AgentState) :
    shellKind (create_aas i s g st).1 = some AssetKind.INSTANCE := rfl

theorem shellKind_add_submodel (i s : String) (st : AgentState) :
    shellKind (add_submodel i s st).1 = shellKind st := by
  cases h : st.aas <;> simp [add_submodel, shellKind, h]

theorem add_property_aas_eq (a b c : String) (v : Option PyVal) (sem : Option String)
    (st : AgentState) : (add_property a b c v sem st).1.aas = st.aas := by
  unfold add_property
  repeat' split
  all_goals rfl

theorem update_property_aas_eq (a b : String) (v : PyVal) (st : AgentState) :
    (update_property a b v st).1.aas = st.aas := by
  unfold update_property
  repeat' split
  all_goals rfl

theorem update_semantic_id_aas_eq (a b c : String) (st : AgentState) :
    (update_semantic_id a b c st).1.aas = st.aas := by
  unfold update_semantic_id
  repeat' split
  all_goals rfl

theorem get_property_value_fst (a b : String) (st : AgentState) :
    (get_property_value a b st).1 = st := by
  unfold get_property_value
  repeat' split
  all_goals rfl

theorem save_aas_fst (fn : String) (st : AgentState) : (save_aas fn st).1 = st := by
  unfold save_aas
  repeat' split
  all_goals rfl

theorem get_digital_twin_json_fst (st : AgentState) :
    (get_digital_twin_json st).1 = st := by
  unfold get_digital_twin_json
  split
  · rfl
  · dsimp only
    split <;> rfl

theorem add_concept_description_aas_eq (i s : String) (pn df : Option String)
    (st : AgentState) : (add_concept_description i s pn df st).1.aas = st.aas := rfl

theorem opOfName_loadAas {n : String} (h : opOfName n = some OpName.loadAas) :
    n = "load_aas" := by
  unfold opOfName at h
  split_ifs at h <;> simp_all

theorem runHandler_ok_kind (fs : String → Option (List StoreObj)) (op : OpName)
    (a : FnArgs) (st st2 : AgentState) (out : OpOutcome)
    (hop : op ≠ OpName.loadAas) (hk : shellKind st ≠ some AssetKind.TYPE)
    (h : runHandler fs op a st = .ok (st2, out)) :
    shellKind st2 ≠ some AssetKind.TYPE := by
  cases op with
  | loadAas => exact absurd rfl hop
  | createAas =>
    simp only [runHandler] at h
    split at h <;> simp only [Except.ok.injEq, reduceCtorEq] at h
    replace h := congrArg Prod.fst h
    dsimp only at h
    rw [← h, shellKind_create_aas]
    decide
  | addSubmodel =>
    simp only [runHandler] at h
    split at h <;> simp only [Except.ok.injEq, reduceCtorEq] at h
    replace h := congrArg Prod.fst h
    dsimp only at h
    rw [← h, shellKind_add_submodel]
    exact hk
  | addProperty =>
    simp only [runHandler] at h
    split at h <;> simp only [Except.ok.injEq, reduceCtorEq] at h
    replace h := congrArg Prod.fst h
    dsimp only at h
    rw [← h, shellKind_congr (add_property_aas_eq _ _ _ _ _ _)]
    exact hk
  | updateProperty =>
    simp only [runHandler] at h
    split at h <;> simp only [Except.ok.injEq, reduceCtorEq] at h
    replace h := congrArg Prod.fst h
    dsimp only at h
    rw [← h, shellKind_congr (update_property_aas_eq _ _ _ _)]
    exact hk
  | getPropertyValue =>
    simp only [runHandler] at h
    split at h <;> simp only [Except.ok.injEq, reduceCtorEq] at h
    replace h := congrArg Prod.fst h
    dsimp only at h
    rw [← h, get_property_value_fst]
    exact hk
  | saveAas =>
    simp only [runHandler] at h
    split at h <;> simp only [Except.ok.injEq, reduceCtorEq] at h
    replace h := congrArg Prod.fst h
    dsimp only at h
    rw [← h, save_aas_fst]
    exact hk
  | getTreeView =>
    simp only [runHandler, Except.ok.injEq] at h
    replace h := congrArg Prod.fst h
    dsimp only at h
    rw [← h]
    exact hk
  | getCurrentState =>
    simp only [runHandler, Except.ok.injEq] at h
    replace h := congrArg Prod.fst h
    dsimp only at h
    rw [← h]
    exact hk
  | addConceptDescription =>
    simp only [runHandler] at h
    split at h <;> simp only [Except.ok.injEq, reduceCtorEq] at h
    replace h := congrArg Prod.fst h
    dsimp only at h
    rw [← h, shellKind_congr (add_concept_description_aas_eq _ _ _ _ _)]
    exact hk
  | updateSemanticId =>
    simp only [runHandler] at h
    split at h <;> simp only [Except.ok.injEq, reduceCtorEq] at h
    replace h := congrArg Prod.fst h
    dsimp only at h
    rw [← h, shellKind_congr (update_semantic_id_aas_eq _ _ _ _)]
    exact hk
  | getDigitalTwinJson =>
    simp only [runHandler, Except.ok.injEq] at h
    replace h := congrArg Prod.fst h
    dsimp only at h
    rw [← h, get_digital_twin_json_fst]
    exact hk

theorem exec_step_kind (fs : String → Option (List StoreObj)) (n : String)
    (a : FnArgs) (st : AgentState) (hn : n ≠ "load_aas")
    (hk : shellKind st ≠ some AssetKind.TYPE) :
    shellKind (execute_function fs n a st).1 ≠ some AssetKind.TYPE := by
  cases hop : opOfName n with
  | none => simpa [execute_function, hop] using hk
  | some op =>
    have hload : op ≠ OpName.loadAas := by
      intro he
      exact hn (opOfName_loadAas (he ▸ hop))
    cases hrun : runHandler fs op a st with
    | error e => simpa [execute_function, hop, hrun] using hk
    | ok pr =>
      obtain ⟨st2, out⟩ := pr
      have hex : (execute_function fs n a st).1 = st2 := by
        simp [execute_function, hop, hrun]
      rw [hex]
      exact runHandler_ok_kind fs op a st st2 out hload hk hrun

/-- Claim C10: the create-shell operation takes no asset-kind argument and
hard-codes `INSTANCE`; consequently no sequence of dispatched catalog
operations other than `load_aas` can ever produce a document whose shell has
asset kind `TYPE` (starting from any document whose shell is not already
`TYPE`, in particular from the empty document). -/
theorem catalog_never_creates_type_shell (fs : String → Option (List StoreObj))
    (ops : List (String × FnArgs)) (st : AgentState)
    (hload : ∀ op ∈ ops, op.1 ≠ "load_aas")
    (hst : shellKind st ≠ some AssetKind.TYPE) :
    shellKind (runOps fs ops st) ≠ some AssetKind.TYPE := by
  induction ops generalizing st with
  | nil => exact hst
  | cons hd tl ih =>
    have hstep := exec_step_kind fs hd.1 hd.2 st
      (hload hd (List.mem_cons_self hd tl)) hst
    exact ih ((execute_function fs hd.1 hd.2 st).1)
      (fun op hop => hload op (List.mem_cons_of_mem hd hop)) hstep

def argsCreateEx : FnArgs :=
  { aas_id := some "https://ex/aas/m", id_short := some "m",
    global_asset_id := some "https://ex/assets/m" }

def argsAddSmEx : FnArgs :=
  { submodel_id := some "https://ex/sm/t", id_short := some "T" }

theorem catalog_never_creates_type_shell_witness :
    shellKind (runOps (fun _ => none)
      [("create_aas", argsCreateEx), ("add_submodel", argsAddSmEx),
       ("no_such_op", noArgs)] emptyState) ≠ some AssetKind.TYPE :=
  catalog_never_creates_type_shell (fun _ => none) _ emptyState
    (by intro op hop; fin_cases hop <;> decide) (by decide)

/-! ## Claim C1: save/load round trip -/

theorem foldl_subStep_skip_concepts (cds : List ConceptDescription) :
    ∀ acc, (cds.map StoreObj.conceptObj).foldl subStep acc = acc := by
  induction cds with
  | nil => intro acc; rfl
  | cons c rest ih =>
    intro acc
    simp only [List.map_cons, List.foldl_cons, subStep]
    exact ih acc

theorem foldl_cdStep_skip_submodels (sms : List Submodel) :
    ∀ acc, (sms.map StoreObj.submodelObj).foldl cdStep acc = acc := by
  induction sms with
  | nil => intro acc; rfl
  | cons s rest ih =>
    intro acc
    simp only [List.map_cons, List.foldl_cons, cdStep]
    exact ih acc

theorem foldl_subStep_inserts (sms : List Submodel) :
    ∀ acc, (sms.map (fun s => s.id)).Nodup →
      (∀ s ∈ sms, s.id ∉ acc.map Prod.fst) →
      (sms.map StoreObj.submodelObj).foldl subStep acc
        = acc ++ sms.map (fun s => (s.id, s)) := by
  induction sms with
  | nil => intro acc _ _; simp
  | cons s rest ih =>
    intro acc hnd hdisj
    simp only [List.map_cons, List.foldl_cons, subStep]
    rw [dictInsert_append_of_not_mem s (hdisj s (List.mem_cons_self s rest))]
    rw [ih (acc ++ [(s.id, s)]) (List.nodup_cons.mp hnd).2 ?_]
    · simp
    · intro s2 hs2
      have h1 : s2.id ∉ acc.map Prod.fst := hdisj s2 (List.mem_cons_of_mem s hs2)
      have h2 : s2.id ≠ s.id := by
        intro he
        have hm : s2.id ∈ rest.map (fun s => s.id) := List.mem_map_of_mem (fun s => s.id) hs2
        rw [he] at hm
        exact (List.nodup_cons.mp hnd).1 hm
      simp [h1, h2]

theorem foldl_cdStep_inserts (cds : List ConceptDescription) :
    ∀ acc, (cds.map (fun c => c.id)).Nodup →
      (∀ c ∈ cds, c.id ∉ acc.map Prod.fst) →
      (cds.map StoreObj.conceptObj).foldl cdStep acc
        = acc ++ cds.map (fun c => (c.id, c)) := by
  induction cds with
  | nil => intro acc _ _; simp
  | cons c rest ih =>
    intro acc hnd hdisj
    simp only [List.map_cons, List.foldl_cons, cdStep]
    rw [dictInsert_append_of_not_mem c (hdisj c (List.mem_cons_self c rest))]
    rw [ih (acc ++ [(c.id, c)]) (List.nodup_cons.mp hnd).2 ?_]
    · simp
    · intro c2 hc2
      have h1 : c2.id ∉ acc.map Prod.fst := hdisj c2 (List.mem_cons_of_mem c hc2)
      have h2 : c2.id ≠ c.id := by
        intro he
        have hm : c2.id ∈ rest.map (fun c => c.id) := List.mem_map_of_mem (fun c => c.id) hc2
        rw [he] at hm
        exact (List.nodup_cons.mp hnd).1 hm
      simp [h1, h2]

theorem map_rekey {α : Type} (f : α → String) :
    ∀ (l : List (String × α)), (∀ p ∈ l, p.1 = f p.2) →
      l.map (fun p => (f p.2, p.2)) = l := by
  intro l
  induction l with
  | nil => intro _; rfl
  | cons p rest ih =>
    intro h
    obtain ⟨k, v⟩ := p
    have h1 : k = f v := h (k, v) (List.mem_cons_self _ _)
    simp only [List.map_cons]
    rw [ih (fun q hq => h q (List.mem_cons_of_mem _ hq)), ← h1]

/-- Claim C1: for any well-formed document (shell present, dictionary keys
equal to the stored objects' identifiers, all identifiers in the object store
distinct), `save` followed by `load` into a fresh document reconstructs the
document exactly: identical shell fields, identical submodel mapping (hence
ids, short names and element (name, type, value, semantic id) tuples), and
identical concept-description mapping (hence ids, names, texts).  The theorem
holds for every such document, in particular for any reordering of the
concept descriptions, so the result is independent of their ordering. -/
theorem save_load_round_trip (st : AgentState) (a : Shell)
    (ha : st.aas = some a)
    (hsub : ∀ p ∈ st.submodels, p.1 = p.2.id)
    (hcd : ∀ p ∈ st.concept_descriptions, p.1 = p.2.id)
    (hids : ((buildStore a st).map storeId).Nodup) :
    ∃ store, saveStore st = Except.ok store
      ∧ ∀ (fn : String) (fresh : AgentState), (load_aas fn store fresh).1 = st := by
  have hnodup_sub : (st.submodels.map (fun p => p.2.id)).Nodup := by
    have h1 := hids
    simp only [buildStore, List.map_cons, List.map_append, List.map_map] at h1
    have h2 := (List.nodup_append.mp (List.nodup_cons.mp h1).2).1
    simpa [Function.comp, storeId] using h2
  have hnodup_cd : (st.concept_descriptions.map (fun p => p.2.id)).Nodup := by
    have h1 := hids
    simp only [buildStore, List.map_cons, List.map_append, List.map_map] at h1
    have h2 := (List.nodup_append.mp (List.nodup_cons.mp h1).2).2.1
    simpa [Function.comp, storeId] using h2
  refine ⟨buildStore a st, ?_, ?_⟩
  · simp [saveStore, ha, hids]
  · intro fn fresh
    have hsms : collectSubmodels (buildStore a st) = st.submodels := by
      unfold collectSubmodels buildStore
      rw [List.foldl_cons, show subStep [] (StoreObj.shellObj a) = [] from rfl,
        List.foldl_append,
        show st.submodels.map (fun p => StoreObj.submodelObj p.2)
            = (st.submodels.map Prod.snd).map StoreObj.submodelObj from by
          simp [List.map_map, Function.comp],
        show st.concept_descriptions.map (fun p => StoreObj.conceptObj p.2)
            = (st.concept_descriptions.map Prod.snd).map StoreObj.conceptObj from by
          simp [List.map_map, Function.comp],
        foldl_subStep_inserts (st.submodels.map Prod.snd) []
          (by simpa [List.map_map, Function.comp] using hnodup_sub)
          (by intro s hs; simp),
        foldl_subStep_skip_concepts]
      rw [List.nil_append, List.map_map]
      exact map_rekey (fun s => s.id) st.submodels hsub
    have hcds : collectConcepts (buildStore a st) = st.concept_descriptions := by
      unfold collectConcepts buildStore
      rw [List.foldl_cons, show cdStep [] (StoreObj.shellObj a) = [] from rfl,
        List.foldl_append,
        show st.submodels.map (fun p => StoreObj.submodelObj p.2)
            = (st.submodels.map Prod.snd).map StoreObj.submodelObj from by
          simp [List.map_map, Function.comp],
        show st.concept_descriptions.map (fun p => StoreObj.conceptObj p.2)
            = (st.concept_descriptions.map Prod.snd).map StoreObj.conceptObj from by
          simp [List.map_map, Function.comp],
        foldl_cdStep_skip_submodels,
        foldl_cdStep_inserts (st.concept_descriptions.map Prod.snd) []
          (by simpa [List.map_map, Function.comp] using hnodup_cd)
          (by intro c hc; simp)]
      rw [List.nil_append, List.map_map]
      exact map_rekey (fun c => c.id) st.concept_descriptions hcd
    have hfst : firstShell (buildStore a st) = some a := rfl
    have h4 : (load_aas fn (buildStore a st) fresh).1
        = ⟨firstShell (buildStore a st), collectSubmodels (buildStore a st),
            collectConcepts (buildStore a st)⟩ := by
      unfold load_aas
      dsimp only
      split <;> rfl
    rw [h4, hfst, hsms, hcds, ← ha]

def cdEx1 : ConceptDescription :=
  ⟨"https://ex/cd/temp", "TempCD", some "Temperature", some "Ambient temperature"⟩

def cdEx2 : ConceptDescription := ⟨"https://ex/cd/cnt", "CntCD", none, none⟩

def stFull : AgentState :=
  ⟨some shellEx, [("https://ex/sm/tech", smTech)],
    [("https://ex/cd/temp", cdEx1), ("https://ex/cd/cnt", cdEx2)]⟩

theorem save_load_round_trip_witness :
    saveStore stFull = Except.ok (buildStore shellEx stFull)
      ∧ (load_aas "m.json" (buildStore shellEx stFull) emptyState).1 = stFull := by
  have h3 : saveStore stFull = Except.ok (buildStore shellEx stFull) := rfl
  obtain ⟨store, h1, h2⟩ :=
    save_load_round_trip stFull shellEx rfl (by decide) (by decide) (by decide)
  have he : store = buildStore shellEx stFull := by
    rw [h3] at h1
    exact (Except.ok.inj h1).symm
  exact ⟨h3, by rw [← he]; exact h2 "m.json" emptyState⟩

end DTwinBot
